import Mathlib

/-!
Shallow embedding of the borrowing lifecycle core of the
`library-qr-system-backend` repository.

The definitions below are translated from the JavaScript source:

* `borrowBook`, `returnBook`, `extendBorrowing` from
  `src/controllers/borrowing.controller.js`;
* `updateBook`, `syncBookStatus` from `src/controllers/book.controller.js`;
* `sweepItem` / `sweepLoop` / `checkOverdueBooks` from
  `src/services/overdue.service.js`.

The Prisma entity store is modelled as an explicit record of lists (`DB`);
each Prisma call becomes a pure operation on that record.  Dates are
modelled as `Int` millisecond timestamps; JavaScript numbers that hold copy
counts are modelled as `Int` (a raw `decrement` can drive them negative).
Strings are modelled as `List Char` so that the Prisma `contains` filter
used by the overdue sweep is an executable substring test.
-/

namespace LibraryQR

/-- User roles (Prisma enum `Role`). -/
inductive Role
  | ADMIN | STAFF | USER
deriving DecidableEq

/-- User account status (Prisma enum `UserStatus`). -/
inductive UserStatus
  | ACTIVE | INACTIVE | SUSPENDED
deriving DecidableEq

/-- Book status (Prisma enum `BookStatus`). -/
inductive BookStatus
  | AVAILABLE | BORROWED | MAINTENANCE | LOST
deriving DecidableEq

/-- Borrowing status (Prisma enum `BorrowStatus`). -/
inductive BorrowStatus
  | BORROWED | RETURNED | OVERDUE
deriving DecidableEq

/-- Notification type (Prisma enum `NotificationType`). -/
inductive NotifType
  | OVERDUE | REMINDER | SYSTEM | INFO
deriving DecidableEq

/-- Error codes thrown via `AppError` in the controllers.  `STORE_ERROR`
models a Prisma-level throw (e.g. updating a row that does not exist). -/
inductive ErrKind
  | FORBIDDEN | VALIDATION_ERROR | BOOK_NOT_FOUND | NO_COPIES_AVAILABLE
  | USER_NOT_FOUND | INACTIVE_USER | ALREADY_BORROWED | BORROWING_LIMIT_REACHED
  | BORROWING_NOT_FOUND | ALREADY_RETURNED | INVALID_STATUS | ISBN_EXISTS
  | STORE_ERROR
deriving DecidableEq

/-- Audit log actions emitted by the modelled operations. -/
inductive AuditAction
  | BOOK_BORROWED | BOOK_RETURNED | BORROWING_EXTENDED | BOOK_UPDATED
deriving DecidableEq

/-- A book record (fields of the Prisma `Book` model that the lifecycle
core reads or writes; `description`, `publicationYear`, `qrCode` and the
foreign keys are never consulted by the modelled operations). -/
structure Book where
  id : Nat
  title : List Char
  isbn : Option (List Char)
  copiesTotal : Int
  copiesAvailable : Int
  status : BookStatus
deriving DecidableEq

/-- A user record (fields consulted by the lifecycle core). -/
structure User where
  id : Nat
  role : Role
  status : UserStatus
deriving DecidableEq

/-- A borrowing record. -/
structure Borrowing where
  id : Nat
  userId : Nat
  bookId : Nat
  borrowDate : Int
  expectedReturnDate : Int
  actualReturnDate : Option Int
  status : BorrowStatus
  notes : Option (List Char)
deriving DecidableEq

/-- A notification record; `createdAt` is filled by the store with the
current time when the row is inserted. -/
structure Notification where
  userId : Nat
  type : NotifType
  title : List Char
  message : List Char
  isRead : Bool
  createdAt : Int
deriving DecidableEq

/-- An audit log record (the fields the claims are about; the free-form
`oldValue` / `newValue` JSON payloads are not modelled). -/
structure AuditRec where
  actorId : Nat
  bookId : Option Nat
  action : AuditAction
deriving DecidableEq

/-- The entity store.  `nextBorrowId` models the store generating a fresh
primary key for an inserted borrowing. -/
structure DB where
  books : List Book
  users : List User
  borrowings : List Borrowing
  notifications : List Notification
  audits : List AuditRec
  nextBorrowId : Nat
deriving DecidableEq

/-- Configuration, with the environment-variable defaults already applied
(`MAX_BOOKS_PER_USER` defaults to 5, `MAX_BORROW_DAYS` to 14). -/
structure Env where
  maxBooksPerUser : Nat
  maxBorrowDays : Int
deriving DecidableEq

/-- Milliseconds in a day, the divisor used in `daysOverdue` computations. -/
def dayMs : Int := 86400000

/-- `date.setDate(date.getDate() + d)` on a date `t`: adding `d` days. -/
def addDays (t d : Int) : Int := t + d * dayMs

/-- `Math.floor((now - expected) / (1000*60*60*24))`; only evaluated when
`expected < now`, where flooring agrees with integer division. -/
def daysOverdue (now expected : Int) : Int := (now - expected) / dayMs

/-- `prisma.book.findUnique({ where: { id } })` over a list of books. -/
def findBookIn (books : List Book) (bid : Nat) : Option Book :=
  books.find? fun bk => decide (bk.id = bid)

/-- Book lookup on the store. -/
def findBook (db : DB) (bid : Nat) : Option Book := findBookIn db.books bid

/-- `prisma.user.findUnique({ where: { id } })`. -/
def findUser (db : DB) (uid : Nat) : Option User :=
  db.users.find? fun u => decide (u.id = uid)

/-- `prisma.borrowing.findUnique({ where: { id } })`. -/
def findBorrowing (db : DB) (id : Nat) : Option Borrowing :=
  db.borrowings.find? fun b => decide (b.id = id)

/-- `prisma.borrowing.findFirst({ where: { userId, bookId, status: 'BORROWED' } })`,
the duplicate-borrowing check of `borrowBook`. -/
def dupBorrow (db : DB) (uid bid : Nat) : Option Borrowing :=
  db.borrowings.find? fun b =>
    decide (b.userId = uid ∧ b.bookId = bid ∧ b.status = BorrowStatus.BORROWED)

/-- `prisma.borrowing.count({ where: { userId, status: 'BORROWED' } })`,
the count compared against `MAX_BOOKS_PER_USER`.  Note the filter is on
status `BORROWED` alone; `OVERDUE` rows are not counted. -/
def countBorrowed (db : DB) (uid : Nat) : Nat :=
  (db.borrowings.filter fun b =>
    decide (b.userId = uid ∧ b.status = BorrowStatus.BORROWED)).length

/-- A Prisma `update({ where: { id }, data: g })` over a list keyed by
`idOf`: every row whose key equals `id` is replaced by `g` of it. -/
def updateWhere {α : Type} (idOf : α → Nat) (id : Nat) (g : α → α)
    (l : List α) : List α :=
  l.map fun x => if idOf x = id then g x else x

/-- Insert a notification row (`prisma.notification.create`); the store
stamps `createdAt` with the current time, handled by the caller. -/
def pushNotif (n : Notification) (db : DB) : DB :=
  { db with notifications := (n :: db.notifications) }

/-- Insert an audit row (`prisma.auditLog.create`). -/
def pushAudit (a : AuditRec) (db : DB) : DB :=
  { db with audits := (a :: db.audits) }

/-- The body of a borrow request (`req.body`); `none` models an absent
field. -/
structure BorrowReq where
  bookId : Option Nat
  userId : Option Nat
  borrowDays : Option Int
  notes : Option (List Char)
deriving DecidableEq

/-- The privilege test at the top of `borrowBook`: a provided `userId`
differing from the caller requires role `ADMIN`
(`userId !== req.user.id && req.user.role !== 'ADMIN'`). -/
def privFail (actor : User) (req : BorrowReq) : Bool :=
  match req.userId with
  | none => false
  | some u => decide (u ≠ actor.id) && decide (actor.role ≠ Role.ADMIN)

/-- The effective borrower: the provided `userId`, else the caller. -/
def effectiveUser (actor : User) (req : BorrowReq) : Nat :=
  match req.userId with
  | none => actor.id
  | some u => u

/-- `borrowDays || MAX_BORROW_DAYS || 14`: a missing or `0` (falsy) value
falls back to the configured default. -/
def resolveDays (env : Env) (req : BorrowReq) : Int :=
  match req.borrowDays with
  | none => env.maxBorrowDays
  | some d => if d = 0 then env.maxBorrowDays else d

/-- The borrowing row inserted by a successful borrow. -/
def mkBorrowing (db : DB) (uid bid : Nat) (now ret : Int)
    (notes : Option (List Char)) : Borrowing :=
  { id := db.nextBorrowId, userId := uid, bookId := bid, borrowDate := now,
    expectedReturnDate := ret, actualReturnDate := none,
    status := BorrowStatus.BORROWED, notes := notes }

/-- Message of the INFO notification created by a successful borrow. -/
def mkBorrowMsg (title : List Char) (ret : Int) : List Char :=
  ("You have borrowed \"").toList ++ title ++ ("\". Please return it by ").toList
    ++ (toString ret).toList ++ (".").toList

/-- `borrowBook` (`src/controllers/borrowing.controller.js`): the checks
run in source order; every `AppError` throw becomes an `Except.error`
carrying the store state at the moment of the throw, and the success path
performs the four store writes in source order (insert borrowing,
decrement copies, audit, notification). -/
def borrowBook (env : Env) (now : Int) (actor : User) (req : BorrowReq)
    (db : DB) : Except (ErrKind × DB) (DB × Borrowing) :=
  if privFail actor req then .error (ErrKind.FORBIDDEN, db)
  else match req.bookId with
  | none => .error (ErrKind.VALIDATION_ERROR, db)
  | some bid =>
    match findBook db bid with
    | none => .error (ErrKind.BOOK_NOT_FOUND, db)
    | some book =>
      if book.copiesAvailable ≤ 0 then .error (ErrKind.NO_COPIES_AVAILABLE, db)
      else match findUser db (effectiveUser actor req) with
      | none => .error (ErrKind.USER_NOT_FOUND, db)
      | some user =>
        if user.status ≠ UserStatus.ACTIVE then .error (ErrKind.INACTIVE_USER, db)
        else if (dupBorrow db (effectiveUser actor req) bid).isSome then
          .error (ErrKind.ALREADY_BORROWED, db)
        else if env.maxBooksPerUser ≤ countBorrowed db (effectiveUser actor req) then
          .error (ErrKind.BORROWING_LIMIT_REACHED, db)
        else
          let uid := effectiveUser actor req
          let ret := addDays now (resolveDays env req)
          let br := mkBorrowing db uid bid now ret req.notes
          let db1 : DB :=
            { db with
                borrowings := (br :: db.borrowings),
                nextBorrowId := db.nextBorrowId + 1 }
          let db2 : DB :=
            { db1 with
                books := updateWhere Book.id bid
                  (fun b => { b with copiesAvailable := b.copiesAvailable - 1 })
                  db1.books }
          let db3 := pushAudit
            { actorId := actor.id, bookId := some bid, action := AuditAction.BOOK_BORROWED } db2
          let db4 := pushNotif
            { userId := uid, type := NotifType.INFO,
              title := ("Book Borrowed Successfully").toList,
              message := mkBorrowMsg book.title ret, isRead := false,
              createdAt := now } db3
          .ok (db4, br)

/-- Message of the notification created by a return. -/
def mkReturnMsg (title : List Char) (wasOverdue : Bool) : List Char :=
  ("Thank you for returning \"").toList ++ title ++ ("\"").toList
    ++ (if wasOverdue then (" (was overdue)").toList else []) ++ (".").toList

/-- `returnBook`: look the borrowing up, reject a second return, then in
source order update the borrowing, increment the book's copies (a Prisma
update on a missing book row throws, leaving the borrowing already
updated), audit, and notify with `REMINDER` when the return happens after
`expectedReturnDate`, else `INFO`. -/
def returnBook (now : Int) (actorId : Nat) (borrowingId : Nat)
    (notes : Option (List Char)) (db : DB) :
    Except (ErrKind × DB) (DB × Borrowing) :=
  match findBorrowing db borrowingId with
  | none => .error (ErrKind.BORROWING_NOT_FOUND, db)
  | some br =>
    if br.status = BorrowStatus.RETURNED then .error (ErrKind.ALREADY_RETURNED, db)
    else
      let g := fun (b : Borrowing) =>
        { b with status := BorrowStatus.RETURNED, actualReturnDate := some now,
                 notes := match notes with | some n => some n | none => br.notes }
      let db1 : DB := { db with borrowings := updateWhere Borrowing.id borrowingId g db.borrowings }
      match findBook db1 br.bookId with
      | none => .error (ErrKind.STORE_ERROR, db1)
      | some bk =>
        let db2 : DB :=
          { db1 with
              books := updateWhere Book.id br.bookId
                (fun b => { b with copiesAvailable := b.copiesAvailable + 1 })
                db1.books }
        let db3 := pushAudit
          { actorId := actorId, bookId := some br.bookId, action := AuditAction.BOOK_RETURNED } db2
        let wasOverdue := decide (br.expectedReturnDate < now)
        let db4 := pushNotif
          { userId := br.userId,
            type := if wasOverdue then NotifType.REMINDER else NotifType.INFO,
            title := ("Book Returned").toList,
            message := mkReturnMsg bk.title wasOverdue, isRead := false,
            createdAt := now } db3
        .ok (db4, g br)

/-- `extendBorrowing`: `!additionalDays || additionalDays < 1` rejects a
missing, zero (falsy) or sub-1 value; only status exactly `BORROWED` may
be extended; the new expected return date is the old one plus the extra
days. -/
def extendBorrowing (actorId : Nat) (borrowingId : Nat)
    (additionalDays : Option Int) (db : DB) :
    Except (ErrKind × DB) (DB × Borrowing) :=
  match additionalDays with
  | none => .error (ErrKind.VALIDATION_ERROR, db)
  | some d =>
    if d < 1 then .error (ErrKind.VALIDATION_ERROR, db)
    else match findBorrowing db borrowingId with
    | none => .error (ErrKind.BORROWING_NOT_FOUND, db)
    | some br =>
      if br.status ≠ BorrowStatus.BORROWED then .error (ErrKind.INVALID_STATUS, db)
      else
        let newRet := addDays br.expectedReturnDate d
        let db1 : DB :=
          { db with
              borrowings := updateWhere Borrowing.id borrowingId
                (fun b => { b with expectedReturnDate := newRet }) db.borrowings }
        let db2 := pushAudit
          { actorId := actorId, bookId := some br.bookId,
            action := AuditAction.BORROWING_EXTENDED } db1
        .ok (db2, { br with expectedReturnDate := newRet })

/-- The body of a book-update request; `none` models an absent field
(`undefined` in the controller's spread conditions).  A provided `isbn` is
modelled as a non-empty (truthy) string. -/
structure BookUpdateReq where
  title : Option (List Char)
  isbn : Option (List Char)
  copiesTotal : Option Int
  copiesAvailable : Option Int
  status : Option BookStatus
deriving DecidableEq

/-- `updateBook` (`src/controllers/book.controller.js`): after the lookup
and the ISBN uniqueness check, `copiesAvailable > copiesTotal` is rejected
only when the request supplies both fields; then every supplied field is
written as given. -/
def updateBook (actorId : Nat) (req : BookUpdateReq) (id : Nat) (db : DB) :
    Except (ErrKind × DB) DB :=
  match findBook db id with
  | none => .error (ErrKind.BOOK_NOT_FOUND, db)
  | some existing =>
    if (match req.isbn with
        | some i => decide (some i ≠ existing.isbn)
            && db.books.any fun b => decide (b.isbn = some i)
        | none => false) then .error (ErrKind.ISBN_EXISTS, db)
    else if (match req.copiesAvailable, req.copiesTotal with
        | some a, some t => decide (t < a)
        | _, _ => false) then .error (ErrKind.VALIDATION_ERROR, db)
    else
      let g := fun (b : Book) =>
        { b with
          title := req.title.getD b.title,
          isbn := (match req.isbn with | some i => some i | none => b.isbn),
          copiesTotal := req.copiesTotal.getD b.copiesTotal,
          copiesAvailable := req.copiesAvailable.getD b.copiesAvailable,
          status := req.status.getD b.status }
      let db1 : DB := { db with books := updateWhere Book.id id g db.books }
      .ok (pushAudit { actorId := actorId, bookId := some id,
                       action := AuditAction.BOOK_UPDATED } db1)

/-- Derived status of a book (`copiesAvailable > 0 ? 'AVAILABLE' : 'BORROWED'`). -/
def derivedStatus (bk : Book) : BookStatus :=
  if 0 < bk.copiesAvailable then BookStatus.AVAILABLE else BookStatus.BORROWED

/-- `syncBookStatus`: recompute the status of every book whose status is
not `MAINTENANCE`/`LOST`, returning the updated store and the number of
books whose status actually changed. -/
def syncBookStatus (db : DB) : DB × Nat :=
  let manual := fun (bk : Book) =>
    bk.status = BookStatus.MAINTENANCE ∨ bk.status = BookStatus.LOST
  ({ db with books := db.books.map fun bk =>
      if manual bk then bk else { bk with status := derivedStatus bk } },
   (db.books.filter fun bk =>
      decide (¬ manual bk ∧ bk.status ≠ derivedStatus bk)).length)

/-! ## The overdue sweep (`src/services/overdue.service.js`) -/

/-- Prefix test on character lists (`List.isPrefixOf` written out so its
specification can be proved locally). -/
def isPref (n h : List Char) : Bool :=
  match n, h with
  | [], _ => true
  | _ :: _, [] => false
  | a :: n', b :: h' => decide (a = b) && isPref n' h'

/-- The Prisma string filter `message: { contains: needle }`: substring
containment. -/
def containsSub (needle hay : List Char) : Bool :=
  match hay with
  | [] => isPref needle []
  | _ :: t => isPref needle hay || containsSub needle t

/-- The predicate of the sweep's deduplication query
`notification.findFirst({ where: { userId, type: 'OVERDUE',
createdAt: { gte: today }, message: { contains: title } } })`. -/
def notifMatches (today : Int) (uid : Nat) (title : List Char)
    (n : Notification) : Bool :=
  decide (n.userId = uid) && decide (n.type = NotifType.OVERDUE)
    && decide (today ≤ n.createdAt) && containsSub title n.message

/-- Message of an OVERDUE notification created by the sweep. -/
def mkOverdueMsg (title : List Char) (d : Int) : List Char :=
  ("Your book \"").toList ++ title
    ++ ("\" is overdue by ").toList ++ (toString d).toList
    ++ (" day(s). Please return it as soon as possible.").toList

/-- The row update `data: { status: 'OVERDUE' }` applied by a sweep
iteration. -/
def markOverdue (x : Borrowing) : Borrowing :=
  { x with status := BorrowStatus.OVERDUE }

/-- `status === 'BORROWED' && expectedReturnDate < now`, the filter of the
sweep's opening query. -/
def dueB (now : Int) (b : Borrowing) : Bool :=
  decide (b.status = BorrowStatus.BORROWED) && decide (b.expectedReturnDate < now)

/-- The borrowings one sweep tick iterates over:
`borrowing.findMany({ where: { status: 'BORROWED',
expectedReturnDate: { lt: now } } })`. -/
def overdueQuery (now : Int) (db : DB) : List Borrowing :=
  db.borrowings.filter (dueB now)

/-- One iteration of the sweep's `for` loop over a queried borrowing `b`:
set the row's status to OVERDUE, then create an OVERDUE notification
unless a same-day one mentioning the book's title already exists.  The
`Bool` is `false` when the iteration threw: either because `failUpd b.id`
injects a store failure into the status update (modelling a transient
storage error, in which case nothing was written), or because the joined
book row is missing (reading `borrowing.book.title` throws after the
status update already went through).  The book is looked up in the current
store; the source reads it from the query's `include`, which is identical
because no sweep step ever writes a book row. -/
def sweepItem (now today : Int) (failUpd : Nat → Bool) (db : DB)
    (b : Borrowing) : Bool × DB :=
  if failUpd b.id then (false, db)
  else
    let db1 : DB :=
      { db with
          borrowings := updateWhere Borrowing.id b.id markOverdue db.borrowings }
    match findBook db1 b.bookId with
    | none => (false, db1)
    | some bk =>
      match db1.notifications.find? (notifMatches today b.userId bk.title) with
      | some _ => (true, db1)
      | none =>
        (true, pushNotif
          { userId := b.userId, type := NotifType.OVERDUE,
            title := ("Book Overdue").toList,
            message := mkOverdueMsg bk.title (daysOverdue now b.expectedReturnDate),
            isRead := false, createdAt := now } db1)

/-- The sweep's `for` loop.  The whole loop body sits inside the single
`try { ... } catch` of `checkOverdueBooks`, so the first iteration that
throws ends the loop: the remaining queried borrowings are not processed,
and the catch swallows the error (the function still returns). -/
def sweepLoop (now today : Int) (failUpd : Nat → Bool) :
    List Borrowing → DB → DB
  | [], db => db
  | b :: rest, db =>
    match sweepItem now today failUpd db b with
    | (true, db') => sweepLoop now today failUpd rest db'
    | (false, db') => db'

/-- One tick of `checkOverdueBooks`: query the overdue set, then run the
loop.  `today` is `new Date()` with the time-of-day cleared, so
`today ≤ now`. -/
def checkOverdueBooks (failUpd : Nat → Bool) (now today : Int) (db : DB) : DB :=
  sweepLoop now today failUpd (overdueQuery now db) db

/-- A tick with no injected store failures. -/
def noFail : Nat → Bool := fun _ => false

/-- Count of notifications for user `uid` that the sweep's deduplication
query would match for a book titled `title`. -/
def countMatching (today : Int) (uid : Nat) (title : List Char)
    (notifs : List Notification) : Nat :=
  (notifs.filter (notifMatches today uid title)).length

/-! ## Interleaved borrow calls

`borrowBook` runs its Prisma calls outside any transaction, so two
concurrent requests interleave at store-call granularity.  Each thread is
the source's `borrowBook` cut at its `await` points: one atomic step per
store call, with the pure checks attached to the step producing the data
they read. -/

/-- Thread outcome: still running, rejected with an error, or responded
201. -/
inductive TOutcome
  | running
  | failed (e : ErrKind)
  | succeeded
deriving DecidableEq

/-- An in-flight `borrowBook` request: program counter plus the book row
snapshot read at step 0 (used later for the notification message). -/
structure BThread where
  actor : User
  req : BorrowReq
  pc : Nat
  bookSnap : Option Book
  out : TOutcome
deriving DecidableEq

/-- One atomic store interaction of an in-flight `borrowBook`.  Step 0 is
the privilege/validation checks plus the book read and its checks; steps
1-3 are the user read, the duplicate check and the limit count; steps 4-7
are the four writes (insert borrowing, decrement copies, audit,
notification), mirroring `borrowBook` above. -/
def stepT (env : Env) (now : Int) (t : BThread) (db : DB) : BThread × DB :=
  if t.out ≠ TOutcome.running then (t, db)
  else
    let uid := effectiveUser t.actor t.req
    match t.pc with
    | 0 =>
      if privFail t.actor t.req then ({ t with out := TOutcome.failed ErrKind.FORBIDDEN }, db)
      else match t.req.bookId with
      | none => ({ t with out := TOutcome.failed ErrKind.VALIDATION_ERROR }, db)
      | some bid =>
        match findBook db bid with
        | none => ({ t with out := TOutcome.failed ErrKind.BOOK_NOT_FOUND }, db)
        | some bk =>
          if bk.copiesAvailable ≤ 0 then
            ({ t with out := TOutcome.failed ErrKind.NO_COPIES_AVAILABLE }, db)
          else ({ t with pc := 1, bookSnap := some bk }, db)
    | 1 =>
      match findUser db uid with
      | none => ({ t with out := TOutcome.failed ErrKind.USER_NOT_FOUND }, db)
      | some user =>
        if user.status ≠ UserStatus.ACTIVE then
          ({ t with out := TOutcome.failed ErrKind.INACTIVE_USER }, db)
        else ({ t with pc := 2 }, db)
    | 2 =>
      if (dupBorrow db uid (t.req.bookId.getD 0)).isSome then
        ({ t with out := TOutcome.failed ErrKind.ALREADY_BORROWED }, db)
      else ({ t with pc := 3 }, db)
    | 3 =>
      if env.maxBooksPerUser ≤ countBorrowed db uid then
        ({ t with out := TOutcome.failed ErrKind.BORROWING_LIMIT_REACHED }, db)
      else ({ t with pc := 4 }, db)
    | 4 =>
      let ret := addDays now (resolveDays env t.req)
      let br := mkBorrowing db uid (t.req.bookId.getD 0) now ret t.req.notes
      ({ t with pc := 5 },
       { db with
           borrowings := (br :: db.borrowings),
           nextBorrowId := db.nextBorrowId + 1 })
    | 5 =>
      ({ t with pc := 6 },
       { db with
           books := updateWhere Book.id (t.req.bookId.getD 0)
             (fun b => { b with copiesAvailable := b.copiesAvailable - 1 }) db.books })
    | 6 =>
      ({ t with pc := 7 },
       pushAudit { actorId := t.actor.id, bookId := t.req.bookId,
                   action := AuditAction.BOOK_BORROWED } db)
    | _ =>
      let ret := addDays now (resolveDays env t.req)
      ({ t with out := TOutcome.succeeded },
       pushNotif
         { userId := uid, type := NotifType.INFO,
           title := ("Book Borrowed Successfully").toList,
           message := mkBorrowMsg ((t.bookSnap.map Book.title).getD []) ret,
           isRead := false, createdAt := now } db)

/-- Run two in-flight borrow requests under a schedule: `true` lets the
first thread take its next store interaction, `false` the second. -/
def runSched (env : Env) (now : Int) :
    List Bool → BThread × BThread × DB → BThread × BThread × DB
  | [], s => s
  | c :: rest, (t1, t2, db) =>
    if c then
      let (t1', db') := stepT env now t1 db
      runSched env now rest (t1', t2, db')
    else
      let (t2', db') := stepT env now t2 db
      runSched env now rest (t1, t2', db')

/-- A fresh thread for a request. -/
def mkThread (actor : User) (req : BorrowReq) : BThread :=
  { actor := actor, req := req, pc := 0, bookSnap := none, out := TOutcome.running }

/-- `Except.isOk` for the operation results. -/
def exceptOk {ε α : Type} : Except ε α → Bool
  | .ok _ => true
  | .error _ => false

/-- The inventory invariant of the specification:
`0 ≤ copiesAvailable ≤ copiesTotal`. -/
def bookInvariant (b : Book) : Prop :=
  0 ≤ b.copiesAvailable ∧ b.copiesAvailable ≤ b.copiesTotal

instance (b : Book) : Decidable (bookInvariant b) := by
  unfold bookInvariant; infer_instance

/-! ## Concrete fixtures

Small stores used by the concrete counterexamples and witnesses below. -/

/-- Default configuration: limit 5 books per user, 14 borrow days. -/
def envD : Env := { maxBooksPerUser := 5, maxBorrowDays := 14 }

/-- A borrowing fixture. -/
def brFix (i uid bid : Nat) (exp : Int) (st : BorrowStatus) : Borrowing :=
  { id := i, userId := uid, bookId := bid, borrowDate := 0,
    expectedReturnDate := exp, actualReturnDate := none, status := st,
    notes := none }

/-- A one-copy book. -/
def raceBook : Book :=
  { id := 1, title := ("B").toList, isbn := none, copiesTotal := 1,
    copiesAvailable := 1, status := BookStatus.AVAILABLE }

/-- Two active ordinary users. -/
def raceUserA : User := { id := 10, role := Role.USER, status := UserStatus.ACTIVE }

/-- Second borrower in the race scenario. -/
def raceUserB : User := { id := 11, role := Role.USER, status := UserStatus.ACTIVE }

/-- A store with one book having exactly one available copy. -/
def raceDB : DB :=
  { books := [raceBook], users := [raceUserA, raceUserB], borrowings := [],
    notifications := [], audits := [], nextBorrowId := 100 }

/-- Borrow request for book 1 on the caller's own behalf. -/
def raceReq : BorrowReq :=
  { bookId := some 1, userId := none, borrowDays := none, notes := none }

/-- Schedule: both threads pass their availability check (step 0) before
either writes, then each runs to completion. -/
def raceSched : List Bool :=
  [true, false] ++ List.replicate 7 true ++ List.replicate 7 false

/-- The store after thread A's serialized borrow of book 1. -/
def c2db1 : DB :=
  match borrowBook envD 0 raceUserA raceReq raceDB with
  | .ok (d, _) => d
  | .error _ => raceDB

/-- The borrowing created by thread A's serialized borrow. -/
def c2br : Borrowing :=
  match borrowBook envD 0 raceUserA raceReq raceDB with
  | .ok (_, b) => b
  | .error _ => brFix 0 0 0 0 BorrowStatus.BORROWED

/-- A STAFF member. -/
def staffActor : User := { id := 20, role := Role.STAFF, status := UserStatus.ACTIVE }

/-- Borrow request naming another user (user 10) as target. -/
def c3req : BorrowReq :=
  { bookId := some 1, userId := some 10, borrowDays := none, notes := none }

/-- A two-copy, one-available book. -/
def bookFix (i : Nat) : Book :=
  { id := i, title := ("B").toList, isbn := none, copiesTotal := 2,
    copiesAvailable := 1, status := BookStatus.AVAILABLE }

/-- User 10 holds 4 BORROWED and 1 OVERDUE borrowings (5 active in the
spec's sense, equal to the limit). -/
def c4db : DB :=
  { books := [bookFix 1, bookFix 2, bookFix 3, bookFix 4, bookFix 5, bookFix 6],
    users := [raceUserA],
    borrowings := [brFix 1 10 1 0 BorrowStatus.BORROWED,
      brFix 2 10 2 0 BorrowStatus.BORROWED, brFix 3 10 3 0 BorrowStatus.BORROWED,
      brFix 4 10 4 0 BorrowStatus.BORROWED, brFix 5 10 5 0 BorrowStatus.OVERDUE],
    notifications := [], audits := [], nextBorrowId := 100 }

/-- Borrow request for the sixth (available) book. -/
def c4req : BorrowReq :=
  { bookId := some 6, userId := none, borrowDays := none, notes := none }

/-- User 10 holds 5 BORROWED borrowings: at the limit in the code's own
count. -/
def c4dbFull : DB :=
  { c4db with borrowings := [brFix 1 10 1 0 BorrowStatus.BORROWED,
      brFix 2 10 2 0 BorrowStatus.BORROWED, brFix 3 10 3 0 BorrowStatus.BORROWED,
      brFix 4 10 4 0 BorrowStatus.BORROWED, brFix 5 10 5 0 BorrowStatus.BORROWED] }

/-- User 10 has an OVERDUE (active, not yet returned) borrowing of book 5. -/
def c5db : DB :=
  { books := [bookFix 5], users := [raceUserA],
    borrowings := [brFix 5 10 5 0 BorrowStatus.OVERDUE],
    notifications := [], audits := [], nextBorrowId := 100 }

/-- Borrow request for book 5 again. -/
def c5req : BorrowReq :=
  { bookId := some 5, userId := none, borrowDays := none, notes := none }

/-- A book with 3 copies, all available. -/
def c1book : Book :=
  { id := 1, title := ("B").toList, isbn := none, copiesTotal := 3,
    copiesAvailable := 3, status := BookStatus.AVAILABLE }

/-- Store holding only `c1book`; it satisfies the inventory invariant. -/
def c1db : DB :=
  { books := [c1book], users := [], borrowings := [], notifications := [],
    audits := [], nextBorrowId := 0 }

/-- Book update supplying only `copiesAvailable := 5` (no `copiesTotal`). -/
def c1req : BookUpdateReq :=
  { title := none, isbn := none, copiesTotal := none,
    copiesAvailable := some 5, status := none }

/-- The stored book after the single-field update: 5 available of 3 total. -/
def c1book' : Book := { c1book with copiesAvailable := 5 }

/-- The store after the single-field update. -/
def c1db' : DB :=
  { books := [c1book'], users := [], borrowings := [], notifications := [],
    audits := [{ actorId := 1, bookId := some 1, action := AuditAction.BOOK_UPDATED }],
    nextBorrowId := 0 }

/-- Two overdue (due yesterday) BORROWED rows for user 10 on book 1. -/
def c8db : DB :=
  { books := [bookFix 1], users := [raceUserA],
    borrowings := [brFix 1 10 1 (-1) BorrowStatus.BORROWED,
      brFix 2 10 1 (-1) BorrowStatus.BORROWED],
    notifications := [], audits := [], nextBorrowId := 0 }

/-- Injected store failure on the update of borrowing 1. -/
def failOn1 : Nat → Bool := fun i => decide (i = 1)

/-- One overdue BORROWED row for user 10 on book 1, due at time 0. -/
def c7db : DB :=
  { books := [bookFix 1], users := [raceUserA],
    borrowings := [brFix 1 10 1 0 BorrowStatus.BORROWED],
    notifications := [], audits := [], nextBorrowId := 0 }

/-- Borrow request for a book id that is not in the store. -/
def c5reqMissing : BorrowReq :=
  { bookId := some 99, userId := none, borrowDays := none, notes := none }

/-! ## Lemmas about the store primitives -/

theorem isPref_append (n u : List Char) : isPref n (n ++ u) = true := by
  induction n with
  | nil => rfl
  | cons a n ih => simp [isPref, ih]

theorem containsSub_append (n s u : List Char) :
    containsSub n (s ++ n ++ u) = true := by
  induction s with
  | nil =>
    cases hn : n with
    | nil =>
      cases u with
      | nil => rfl
      | cons c t => simp [containsSub, isPref]
    | cons a n' => simp [containsSub, isPref, isPref_append]
  | cons c s ih =>
    simp only [containsSub, List.cons_append, Bool.or_eq_true]
    right
    simpa [List.append_assoc] using ih

theorem find?_updateWhere {α : Type} (idOf : α → Nat) (k : Nat) (g : α → α)
    (l : List α) (a : α) (h : l.find? (fun x => decide (idOf x = k)) = some a)
    (hg : idOf (g a) = idOf a) :
    (updateWhere idOf k g l).find? (fun x => decide (idOf x = k)) = some (g a) := by
  induction l with
  | nil => simp [List.find?] at h
  | cons x l ih =>
    by_cases hx : idOf x = k
    · rw [List.find?_cons_of_pos _ (by simpa using hx)] at h
      cases h
      simp only [updateWhere, List.map_cons, if_pos hx]
      exact List.find?_cons_of_pos _ (by simpa using hg.trans hx)
    · rw [List.find?_cons_of_neg _ (by simpa using hx)] at h
      simp only [updateWhere, List.map_cons, if_neg hx]
      rw [List.find?_cons_of_neg _ (by simpa using hx)]
      exact ih h

/-! ## Lemmas about `borrowBook` -/

/-- Inversion of a successful borrow: all checks passed and the four
writes happened. -/
theorem borrowBook_ok_inv {env : Env} {now : Int} {actor : User}
    {req : BorrowReq} {db db1 : DB} {br : Borrowing}
    (h : borrowBook env now actor req db = .ok (db1, br)) :
    ∃ bid book,
      req.bookId = some bid ∧ findBook db bid = some book ∧
      0 < book.copiesAvailable ∧
      br = mkBorrowing db (effectiveUser actor req) bid now
        (addDays now (resolveDays env req)) req.notes ∧
      db1.books = updateWhere Book.id bid
        (fun b => { b with copiesAvailable := b.copiesAvailable - 1 }) db.books ∧
      db1.borrowings = (br :: db.borrowings) ∧
      db1.users = db.users := by
  unfold borrowBook at h
  split at h
  · simp at h
  · split at h
    · simp at h
    · next bid hbid =>
      split at h
      · simp at h
      · next book hbook =>
        split at h
        · simp at h
        · next havail =>
          split at h
          · simp at h
          · next user huser =>
            split at h
            · simp at h
            · split at h
              · simp at h
              · split at h
                · simp at h
                · simp only [pushAudit, pushNotif, Except.ok.injEq, Prod.mk.injEq] at h
                  obtain ⟨hdb, hbr⟩ := h
                  subst hdb
                  subst hbr
                  exact ⟨bid, book, hbid, hbook, by omega, rfl, rfl, rfl, rfl⟩

/-- C3 (amended): when `targetUserId` is given and differs from the
caller, only role ADMIN passes the privilege check: any other role
(including STAFF) is rejected with `FORBIDDEN` (PermissionDenied), and an
ADMIN caller is never rejected with `FORBIDDEN`. -/
theorem borrow_on_behalf_admin_only (env : Env) (now : Int) (actor : User)
    (req : BorrowReq) (db : DB) (u : Nat)
    (hu : req.userId = some u) (hne : u ≠ actor.id) :
    (actor.role ≠ Role.ADMIN →
      borrowBook env now actor req db = .error (ErrKind.FORBIDDEN, db))
    ∧ (actor.role = Role.ADMIN →
      ∀ e db', borrowBook env now actor req db = .error (e, db') →
        e ≠ ErrKind.FORBIDDEN) := by
  constructor
  · intro hrole
    have hpf : privFail actor req = true := by simp [privFail, hu, hne, hrole]
    simp [borrowBook, hpf]
  · intro hadm e db' herr hfe
    have hpf : privFail actor req = false := by simp [privFail, hu, hadm]
    subst hfe
    unfold borrowBook at herr
    rw [hpf] at herr
    simp only [Bool.false_eq_true, if_false] at herr
    repeat' split at herr
    all_goals simp at herr

/-- C4 (amended): the limit check compares `MAX_BOOKS_PER_USER` against
the number of the user's borrowings with status exactly `BORROWED`
(see `countBorrowed`); OVERDUE borrowings do not count towards the limit.
A user at or over the limit in BORROWED rows alone is rejected with
`BORROWING_LIMIT_REACHED`; below it, the borrow succeeds. -/
theorem borrow_limit_counts_borrowed_only (env : Env) (now : Int)
    (actor : User) (req : BorrowReq) (db : DB) (bid : Nat) (book : Book)
    (user : User)
    (hpriv : privFail actor req = false) (hbid : req.bookId = some bid)
    (hbook : findBook db bid = some book) (hav : 0 < book.copiesAvailable)
    (huser : findUser db (effectiveUser actor req) = some user)
    (hstat : user.status = UserStatus.ACTIVE)
    (hdup : dupBorrow db (effectiveUser actor req) bid = none) :
    (env.maxBooksPerUser ≤ countBorrowed db (effectiveUser actor req) →
      borrowBook env now actor req db =
        .error (ErrKind.BORROWING_LIMIT_REACHED, db))
    ∧ (countBorrowed db (effectiveUser actor req) < env.maxBooksPerUser →
      exceptOk (borrowBook env now actor req db) = true) := by
  have hav' : ¬ book.copiesAvailable ≤ 0 := by omega
  constructor
  · intro hlim
    simp [borrowBook, hpriv, hbid, hbook, huser, hstat, hdup, hlim, hav']
  · intro hlim
    have hlim' : ¬ env.maxBooksPerUser ≤ countBorrowed db (effectiveUser actor req) := by omega
    simp [borrowBook, hpriv, hbid, hbook, huser, hstat, hdup, exceptOk, hav', hlim']

/-- C5 (amended): the borrow preconditions are evaluated in source order
(privilege, book exists, copies available, user exists, user active, no
duplicate BORROWED borrowing for the pair — OVERDUE duplicates are not
rejected —, borrow limit), the first failing check yields its distinct
error kind, and every failure leaves the store untouched. -/
theorem borrow_check_order_and_purity (env : Env) (now : Int) (actor : User)
    (req : BorrowReq) (db : DB) :
    (∀ e db', borrowBook env now actor req db = .error (e, db') → db' = db)
    ∧ (privFail actor req = true →
      borrowBook env now actor req db = .error (ErrKind.FORBIDDEN, db))
    ∧ (∀ bid, privFail actor req = false → req.bookId = some bid →
      findBook db bid = none →
      borrowBook env now actor req db = .error (ErrKind.BOOK_NOT_FOUND, db))
    ∧ (∀ bid book, privFail actor req = false → req.bookId = some bid →
      findBook db bid = some book → book.copiesAvailable ≤ 0 →
      borrowBook env now actor req db = .error (ErrKind.NO_COPIES_AVAILABLE, db))
    ∧ (∀ bid book, privFail actor req = false → req.bookId = some bid →
      findBook db bid = some book → 0 < book.copiesAvailable →
      findUser db (effectiveUser actor req) = none →
      borrowBook env now actor req db = .error (ErrKind.USER_NOT_FOUND, db))
    ∧ (∀ bid book user, privFail actor req = false → req.bookId = some bid →
      findBook db bid = some book → 0 < book.copiesAvailable →
      findUser db (effectiveUser actor req) = some user →
      user.status ≠ UserStatus.ACTIVE →
      borrowBook env now actor req db = .error (ErrKind.INACTIVE_USER, db))
    ∧ (∀ bid book user dup, privFail actor req = false → req.bookId = some bid →
      findBook db bid = some book → 0 < book.copiesAvailable →
      findUser db (effectiveUser actor req) = some user →
      user.status = UserStatus.ACTIVE →
      dupBorrow db (effectiveUser actor req) bid = some dup →
      borrowBook env now actor req db = .error (ErrKind.ALREADY_BORROWED, db))
    ∧ (∀ bid book user, privFail actor req = false → req.bookId = some bid →
      findBook db bid = some book → 0 < book.copiesAvailable →
      findUser db (effectiveUser actor req) = some user →
      user.status = UserStatus.ACTIVE →
      dupBorrow db (effectiveUser actor req) bid = none →
      env.maxBooksPerUser ≤ countBorrowed db (effectiveUser actor req) →
      borrowBook env now actor req db =
        .error (ErrKind.BORROWING_LIMIT_REACHED, db)) := by
  refine ⟨?_, ?_, ?_, ?_, ?_, ?_, ?_, ?_⟩
  · intro e db' h
    unfold borrowBook at h
    repeat' split at h
    all_goals
      first
      | (simp only [Except.error.injEq, Prod.mk.injEq] at h; exact h.2.symm)
      | simp at h
  · intro hpf
    simp [borrowBook, hpf]
  · intro bid hpf hbid hbook
    simp [borrowBook, hpf, hbid, hbook]
  · intro bid book hpf hbid hbook hav
    simp [borrowBook, hpf, hbid, hbook, hav]
  · intro bid book hpf hbid hbook hav huser
    have hav' : ¬ book.copiesAvailable ≤ 0 := by omega
    simp [borrowBook, hpf, hbid, hbook, huser, hav']
  · intro bid book user hpf hbid hbook hav huser hstat
    have hav' : ¬ book.copiesAvailable ≤ 0 := by omega
    simp [borrowBook, hpf, hbid, hbook, huser, hstat, hav']
  · intro bid book user dup hpf hbid hbook hav huser hstat hdup
    have hav' : ¬ book.copiesAvailable ≤ 0 := by omega
    simp [borrowBook, hpf, hbid, hbook, huser, hstat, hdup, hav']
  · intro bid book user hpf hbid hbook hav huser hstat hdup hlim
    have hav' : ¬ book.copiesAvailable ≤ 0 := by omega
    simp [borrowBook, hpf, hbid, hbook, huser, hstat, hdup, hlim, hav']

/-- C2 (amended): `borrowBook`'s availability check and its copy
decrement are separate store calls with no enclosing transaction.  Only
when the two requests are serialized does the intended outcome hold: after
a successful borrow consumed the single remaining copy, a second borrow of
the same book fails with `NO_COPIES_AVAILABLE`, leaves the store
untouched, and the final `copiesAvailable` is 0.  (Under interleaving the
race witness shows both requests can succeed, driving the count to -1.) -/
theorem borrow_serialized_one_success (env : Env) (now : Int)
    (a1 a2 : User) (r1 r2 : BorrowReq) (db db1 : DB) (br : Borrowing)
    (bid : Nat) (bk : Book)
    (h1 : borrowBook env now a1 r1 db = .ok (db1, br))
    (hb1 : r1.bookId = some bid) (hb2 : r2.bookId = some bid)
    (hpf2 : privFail a2 r2 = false)
    (hbk : findBook db bid = some bk) (hav : bk.copiesAvailable = 1) :
    borrowBook env now a2 r2 db1 = .error (ErrKind.NO_COPIES_AVAILABLE, db1)
    ∧ findBook db1 bid = some { bk with copiesAvailable := 0 } := by
  obtain ⟨bid', book', hbid', hbook', hav', hbr, hbooks, hborrow, husers⟩ :=
    borrowBook_ok_inv h1
  rw [hb1] at hbid'
  injection hbid' with hbid'
  subst hbid'
  rw [hbk] at hbook'
  injection hbook' with hbook'
  subst hbook'
  have hfound : findBook db1 bid = some { bk with copiesAvailable := 0 } := by
    have hfw := find?_updateWhere Book.id bid
      (fun b => { b with copiesAvailable := b.copiesAvailable - 1 }) db.books bk
      (by simpa [findBook, findBookIn] using hbk) rfl
    unfold findBook findBookIn
    rw [hbooks, hfw]
    simp only [Option.some.injEq]
    rw [show bk.copiesAvailable - 1 = 0 by omega]
  refine ⟨?_, hfound⟩
  simp [borrowBook, hpf2, hb2, hfound]

/-- A return on an existing, not-yet-returned borrowing whose book row
exists: it succeeds, marks the borrowing RETURNED with
`actualReturnDate = now`, increments the book's `copiesAvailable` by one,
and notifies with `REMINDER` when the return is late, else `INFO`. -/
theorem returnBook_ok (now : Int) (actorId id : Nat)
    (notes : Option (List Char)) (db : DB) (br : Borrowing) (bk : Book)
    (hfind : findBorrowing db id = some br)
    (hst : br.status ≠ BorrowStatus.RETURNED)
    (hbk : findBookIn db.books br.bookId = some bk) :
    ∃ db' br',
      returnBook now actorId id notes db = .ok (db', br') ∧
      br'.status = BorrowStatus.RETURNED ∧
      br'.actualReturnDate = some now ∧
      findBook db' br.bookId =
        some { bk with copiesAvailable := bk.copiesAvailable + 1 } ∧
      db'.notifications.head?.map Notification.type =
        some (if br.expectedReturnDate < now then NotifType.REMINDER
              else NotifType.INFO) := by
  unfold returnBook
  rw [hfind]
  dsimp only
  rw [if_neg hst]
  simp only [findBook, findBookIn]
  have hbk' : List.find? (fun x => decide (x.id = br.bookId)) db.books = some bk := hbk
  rw [hbk']
  refine ⟨_, _, rfl, rfl, rfl, ?_, ?_⟩
  · simp only [pushNotif, pushAudit]
    exact find?_updateWhere Book.id br.bookId
      (fun b => { b with copiesAvailable := b.copiesAvailable + 1 }) db.books bk hbk rfl
  · simp only [pushNotif, pushAudit, List.head?_cons, Option.map_some]
    by_cases hover : br.expectedReturnDate < now
    · simp [hover]
    · simp [hover]

/-- C6: a return on an existing not-yet-RETURNED borrowing sets status
RETURNED and `actualReturnDate = now`, increments the book's
`copiesAvailable` by exactly 1, and the notification kind is REMINDER
exactly when `now > expectedReturnDate`, else INFO; a return on an
already-RETURNED borrowing fails with `ALREADY_RETURNED`; and a borrow
followed by a return of the created borrowing restores the book record
(in particular `copiesAvailable`) to its pre-borrow value. -/
theorem return_book_spec :
    (∀ (now : Int) (actorId id : Nat) (notes : Option (List Char)) (db : DB)
      (br : Borrowing) (bk : Book),
      findBorrowing db id = some br → br.status ≠ BorrowStatus.RETURNED →
      findBook db br.bookId = some bk →
      ∃ db' br',
        returnBook now actorId id notes db = .ok (db', br') ∧
        br'.status = BorrowStatus.RETURNED ∧
        br'.actualReturnDate = some now ∧
        findBook db' br.bookId =
          some { bk with copiesAvailable := bk.copiesAvailable + 1 } ∧
        db'.notifications.head?.map Notification.type =
          some (if br.expectedReturnDate < now then NotifType.REMINDER
                else NotifType.INFO))
    ∧ (∀ (now : Int) (actorId id : Nat) (notes : Option (List Char)) (db : DB)
      (br : Borrowing),
      findBorrowing db id = some br → br.status = BorrowStatus.RETURNED →
      returnBook now actorId id notes db = .error (ErrKind.ALREADY_RETURNED, db))
    ∧ (∀ (env : Env) (now now2 : Int) (actor : User) (req : BorrowReq)
      (db db1 : DB) (br : Borrowing) (bid : Nat) (bk : Book)
      (notes : Option (List Char)),
      borrowBook env now actor req db = .ok (db1, br) →
      req.bookId = some bid → findBook db bid = some bk →
      ∃ db2 br2,
        returnBook now2 actor.id br.id notes db1 = .ok (db2, br2) ∧
        findBook db2 bid = some bk) := by
  refine ⟨?_, ?_, ?_⟩
  · intro now actorId id notes db br bk hfind hst hbk
    exact returnBook_ok now actorId id notes db br bk hfind hst hbk
  · intro now actorId id notes db br hfind hst
    unfold returnBook
    rw [hfind]
    dsimp only
    rw [if_pos hst]
  · intro env now now2 actor req db db1 br bid bk notes h1 hbid hbk
    obtain ⟨bid', book', hbid', hbook', hav', hbr, hbooks, hborrow, husers⟩ :=
      borrowBook_ok_inv h1
    rw [hbid] at hbid'
    injection hbid' with hbid'
    subst hbid'
    rw [hbk] at hbook'
    injection hbook' with hbook'
    subst hbook'
    have hbrbook : br.bookId = bid := by rw [hbr]; rfl
    have hbrst : br.status ≠ BorrowStatus.RETURNED := by rw [hbr]; simp [mkBorrowing]
    have hfind1 : findBorrowing db1 br.id = some br := by
      unfold findBorrowing
      rw [hborrow]
      exact List.find?_cons_of_pos _ (by simp)
    have hbk1 : findBookIn db1.books br.bookId =
        some { bk with copiesAvailable := bk.copiesAvailable - 1 } := by
      unfold findBookIn
      rw [hbooks, hbrbook]
      exact find?_updateWhere Book.id bid
        (fun b => { b with copiesAvailable := b.copiesAvailable - 1 }) db.books bk
        (by simpa [findBook, findBookIn] using hbk) rfl
    obtain ⟨db2, br2, hret, _, _, hfb, _⟩ :=
      returnBook_ok now2 actor.id br.id notes db1 br _ hfind1 hbrst hbk1
    refine ⟨db2, br2, hret, ?_⟩
    rw [hbrbook] at hfb
    rw [hfb]
    simp only [Option.some.injEq]
    rw [show bk.copiesAvailable - 1 + 1 = bk.copiesAvailable by omega]

/-- C9: an extend with `additionalDays ≥ 1` on an existing borrowing
succeeds exactly when the status is BORROWED, adding the days to the old
`expectedReturnDate` (no upper bound) and leaving the status unchanged;
any other status is rejected with `INVALID_STATUS`. -/
theorem extend_borrowing_spec :
    (∀ (actorId id : Nat) (d : Int) (db : DB) (br : Borrowing),
      1 ≤ d → findBorrowing db id = some br →
      br.status = BorrowStatus.BORROWED →
      ∃ db' br',
        extendBorrowing actorId id (some d) db = .ok (db', br') ∧
        br'.expectedReturnDate = addDays br.expectedReturnDate d ∧
        br'.status = br.status ∧
        findBorrowing db' id =
          some { br with expectedReturnDate := addDays br.expectedReturnDate d })
    ∧ (∀ (actorId id : Nat) (d : Int) (db : DB) (br : Borrowing),
      1 ≤ d → findBorrowing db id = some br →
      br.status ≠ BorrowStatus.BORROWED →
      extendBorrowing actorId id (some d) db =
        .error (ErrKind.INVALID_STATUS, db)) := by
  constructor
  · intro actorId id d db br hd hfind hst
    unfold extendBorrowing
    dsimp only
    rw [if_neg (by omega : ¬ d < 1), hfind]
    dsimp only
    rw [if_neg (by simp [hst])]
    refine ⟨_, _, rfl, rfl, hst.symm ▸ rfl, ?_⟩
    simp only [findBorrowing, pushAudit]
    exact find?_updateWhere Borrowing.id id
      (fun b => { b with expectedReturnDate := addDays br.expectedReturnDate d })
      db.borrowings br (by simpa [findBorrowing] using hfind) rfl
  · intro actorId id d db br hd hfind hst
    unfold extendBorrowing
    dsimp only
    rw [if_neg (by omega : ¬ d < 1), hfind]
    dsimp only
    rw [if_pos hst]

/-- C10: the book-update validation rejects `copiesAvailable >
copiesTotal` only when the request supplies both fields; a request
supplying `copiesAvailable` alone is applied unconditionally, with no
comparison against the stored `copiesTotal`. -/
theorem updateBook_copies_validation :
    (∀ (actorId : Nat) (req : BookUpdateReq) (id : Nat) (db : DB) (bk : Book)
      (a t : Int),
      findBook db id = some bk → req.isbn = none →
      req.copiesAvailable = some a → req.copiesTotal = some t → t < a →
      updateBook actorId req id db = .error (ErrKind.VALIDATION_ERROR, db))
    ∧ (∀ (actorId : Nat) (id : Nat) (db : DB) (bk : Book) (a : Int),
      findBook db id = some bk →
      ∃ db',
        updateBook actorId
          { title := none, isbn := none, copiesTotal := none,
            copiesAvailable := some a, status := none } id db = .ok db' ∧
        findBook db' id = some { bk with copiesAvailable := a }) := by
  constructor
  · intro actorId req id db bk a t hbk hisbn hca hct hlt
    unfold updateBook
    rw [hbk]
    dsimp only
    rw [hisbn]
    dsimp only
    rw [if_neg (by simp)]
    rw [hca, hct]
    dsimp only
    rw [if_pos (by simpa using hlt)]
  · intro actorId id db bk a hbk
    unfold updateBook
    rw [hbk]
    dsimp only
    rw [if_neg (by simp)]
    rw [if_neg (by simp)]
    refine ⟨_, rfl, ?_⟩
    simp only [findBook, findBookIn, pushAudit]
    have := find?_updateWhere Book.id id
      (fun b =>
        { b with
          title := (Option.none).getD b.title,
          isbn := (match (none : Option (List Char)) with
                   | some i => some i | none => b.isbn),
          copiesTotal := (Option.none).getD b.copiesTotal,
          copiesAvailable := (some a).getD b.copiesAvailable,
          status := (Option.none).getD b.status })
      db.books bk (by simpa [findBook, findBookIn] using hbk) rfl
    simpa using this

/-! ## Lemmas about the overdue sweep -/

theorem sweepItem_books (now today : Int) (failUpd : Nat → Bool) (db : DB)
    (b : Borrowing) : (sweepItem now today failUpd db b).2.books = db.books := by
  unfold sweepItem
  dsimp only
  split
  · rfl
  · split
    · rfl
    · split
      · rfl
      · rfl

theorem sweepItem_ok (now today : Int) (failUpd : Nat → Bool) (db : DB)
    (b : Borrowing) (hf : failUpd b.id = false)
    (hbk : (findBookIn db.books b.bookId).isSome) :
    (sweepItem now today failUpd db b).1 = true ∧
    (sweepItem now today failUpd db b).2.borrowings =
      updateWhere Borrowing.id b.id markOverdue db.borrowings := by
  obtain ⟨bk, hbk⟩ := Option.isSome_iff_exists.mp hbk
  unfold sweepItem
  simp only [hf, Bool.false_eq_true, if_false, findBook, findBookIn]
  unfold findBookIn at hbk
  rw [hbk]
  dsimp only
  split
  · exact ⟨rfl, rfl⟩
  · exact ⟨rfl, rfl⟩

theorem sweepLoop_books (now today : Int) (failUpd : Nat → Bool)
    (l : List Borrowing) (db : DB) :
    (sweepLoop now today failUpd l db).books = db.books := by
  induction l generalizing db with
  | nil => rfl
  | cons b rest ih =>
    unfold sweepLoop
    cases hsi : sweepItem now today failUpd db b with
    | mk ok db' =>
      have hb := sweepItem_books now today failUpd db b
      rw [hsi] at hb
      cases ok
      · exact hb
      · dsimp only
        rw [ih db']
        exact hb

theorem sweepLoop_borrowings (now today : Int) (l : List Borrowing) (db : DB)
    (hbk : ∀ b ∈ l, (findBookIn db.books b.bookId).isSome) :
    (sweepLoop now today noFail l db).borrowings =
      l.foldl (fun acc b => updateWhere Borrowing.id b.id markOverdue acc)
        db.borrowings := by
  induction l generalizing db with
  | nil => rfl
  | cons b rest ih =>
    unfold sweepLoop
    cases hsi : sweepItem now today noFail db b with
    | mk ok db' =>
      obtain ⟨hok, hbor⟩ := sweepItem_ok now today noFail db b rfl
        (hbk b (by simp))
      rw [hsi] at hok hbor
      have hbooks := sweepItem_books now today noFail db b
      rw [hsi] at hbooks
      dsimp only at hok hbor hbooks
      subst hok
      dsimp only
      rw [ih db' (fun x hx => by rw [hbooks]; exact hbk x (by simp [hx])), hbor]
      simp [List.foldl_cons]

theorem foldl_updateWhere_map (l L : List Borrowing) :
    l.foldl (fun acc b => updateWhere Borrowing.id b.id markOverdue acc) L =
      L.map (fun x =>
        l.foldl (fun y b => if y.id = b.id then markOverdue y else y) x) := by
  induction l generalizing L with
  | nil => simp
  | cons b rest ih =>
    simp only [List.foldl_cons]
    rw [ih]
    unfold updateWhere
    rw [List.map_map]
    rfl

theorem perElem_eval (l : List Borrowing) (x : Borrowing) :
    l.foldl (fun y b => if y.id = b.id then markOverdue y else y) x =
      if (l.any fun b => decide (x.id = b.id)) then markOverdue x else x := by
  induction l generalizing x with
  | nil => simp
  | cons b rest ih =>
    simp only [List.foldl_cons, List.any_cons]
    by_cases h : x.id = b.id
    · rw [if_pos h, ih (markOverdue x)]
      simp [h, show markOverdue (markOverdue x) = markOverdue x from rfl,
        show (markOverdue x).id = x.id from rfl]
    · rw [if_neg h, ih x]
      simp [h]

theorem filter_any_eq_dueB (now : Int) (L : List Borrowing) (x : Borrowing)
    (hnd : (L.map Borrowing.id).Nodup) (hx : x ∈ L) :
    ((L.filter (dueB now)).any fun b => decide (x.id = b.id)) = dueB now x := by
  cases hdue : dueB now x
  · rw [List.any_eq_false]
    intro b hb
    simp only [List.mem_filter] at hb
    simp only [decide_eq_true_eq]
    intro hid
    have hbx : b = x := List.inj_on_of_nodup_map hnd hb.1 hx hid.symm
    rw [hbx] at hb
    rw [hb.2] at hdue
    exact Bool.noConfusion hdue
  · rw [List.any_eq_true]
    exact ⟨x, List.mem_filter.mpr ⟨hx, hdue⟩, by simp⟩

/-- One fault-free sweep tick rewrites exactly the queried rows: every
borrowing that was BORROWED and past due becomes OVERDUE, every other row
is untouched. -/
theorem sweep_marks (now today : Int) (db : DB)
    (hnd : (db.borrowings.map Borrowing.id).Nodup)
    (hbk : ∀ b ∈ overdueQuery now db, (findBookIn db.books b.bookId).isSome) :
    (checkOverdueBooks noFail now today db).borrowings =
      db.borrowings.map (fun x => if dueB now x then markOverdue x else x) := by
  unfold checkOverdueBooks
  rw [sweepLoop_borrowings now today _ db hbk, foldl_updateWhere_map]
  apply List.map_congr_left
  intro x hx
  rw [perElem_eval]
  rw [show ((overdueQuery now db).any fun b => decide (x.id = b.id)) = dueB now x
    from filter_any_eq_dueB now db.borrowings x hnd hx]

theorem sweep_query_nil (now today : Int) (db : DB)
    (hch : (checkOverdueBooks noFail now today db).borrowings =
      db.borrowings.map (fun x => if dueB now x then markOverdue x else x)) :
    overdueQuery now (checkOverdueBooks noFail now today db) = [] := by
  unfold overdueQuery
  rw [hch]
  rw [List.filter_eq_nil_iff]
  intro a ha
  obtain ⟨x, hx, hax⟩ := List.mem_map.mp ha
  subst hax
  by_cases hdue : dueB now x
  · rw [if_pos hdue]
    simp [dueB, markOverdue]
  · rw [if_neg hdue]
    exact fun h => hdue h

theorem countMatching_cons (today : Int) (u : Nat) (t : List Char)
    (n : Notification) (ns : List Notification) :
    countMatching today u t (n :: ns) =
      (if notifMatches today u t n then 1 else 0) + countMatching today u t ns := by
  unfold countMatching
  rw [List.filter_cons]
  split
  · simp [Nat.add_comm]
  · simp

/-- Along a fault-free sweep over borrowings whose books exist and whose
generated messages can only mention title `t` when the book's title is
`t`, the number of same-day OVERDUE notifications for user `u` matching
title `t` never exceeds one: the deduplication query sees every
notification created earlier in the same tick. -/
theorem sweepLoop_count (now today : Int) (u : Nat) (t : List Char)
    (l : List Borrowing) (db : DB)
    (hbk : ∀ b ∈ l, (findBookIn db.books b.bookId).isSome)
    (hcoll : ∀ b ∈ l, ∀ bk, findBookIn db.books b.bookId = some bk →
      containsSub t (mkOverdueMsg bk.title (daysOverdue now b.expectedReturnDate)) = true →
      bk.title = t)
    (hle : countMatching today u t db.notifications ≤ 1) :
    countMatching today u t (sweepLoop now today noFail l db).notifications ≤ 1 := by
  induction l generalizing db with
  | nil => exact hle
  | cons b rest ih =>
    obtain ⟨bk, hbkb⟩ := Option.isSome_iff_exists.mp (hbk b (by simp))
    unfold sweepLoop sweepItem noFail
    simp only [Bool.false_eq_true, if_false, findBook, findBookIn]
    unfold findBookIn at hbkb
    rw [hbkb]
    dsimp only
    cases hfind : List.find? (notifMatches today b.userId bk.title) db.notifications with
    | some found =>
      dsimp only
      exact ih _ (fun x hx => hbk x (by simp [hx]))
        (fun x hx => hcoll x (by simp [hx])) hle
    | none =>
      dsimp only
      refine ih _ (fun x hx => hbk x (by simp [hx]))
        (fun x hx => hcoll x (by simp [hx])) ?_
      simp only [pushNotif]
      rw [countMatching_cons]
      by_cases hm : notifMatches today u t
          { userId := b.userId, type := NotifType.OVERDUE,
            title := ("Book Overdue").toList,
            message := mkOverdueMsg bk.title (daysOverdue now b.expectedReturnDate),
            isRead := false, createdAt := now } = true
      · have hmm := hm
        unfold notifMatches at hmm
        simp only [Bool.and_eq_true, decide_eq_true_eq] at hmm
        obtain ⟨⟨⟨hu, _⟩, _⟩, hc⟩ := hmm
        have htt : bk.title = t :=
          hcoll b (by simp) bk (by exact hbkb) hc
        have hzero : countMatching today u t db.notifications = 0 := by
          unfold countMatching
          rw [List.length_eq_zero]
          rw [List.filter_eq_nil_iff]
          intro x hx
          have := List.find?_eq_none.mp hfind x hx
          rw [htt, hu] at this
          exact fun hcontra => this hcontra
        rw [hm, hzero]
        simp
      · rw [if_neg hm]
        simpa using hle

/-- A sweep iteration that throws ends the tick: none of the borrowings
queued after it is processed. -/
theorem sweepLoop_append_abort (now today : Int) (failUpd : Nat → Bool)
    (l1 : List Borrowing) (b : Borrowing) (rest : List Borrowing) (db : DB)
    (hf : ∀ x ∈ l1, failUpd x.id = false)
    (hbk1 : ∀ x ∈ l1, (findBookIn db.books x.bookId).isSome)
    (hfb : failUpd b.id = true) :
    sweepLoop now today failUpd (l1 ++ b :: rest) db =
      sweepLoop now today failUpd l1 db := by
  induction l1 generalizing db with
  | nil =>
    simp only [List.nil_append]
    unfold sweepLoop sweepItem
    rw [hfb]
    rfl
  | cons x l1 ih =>
    simp only [List.cons_append]
    unfold sweepLoop
    cases hsi : sweepItem now today failUpd db x with
    | mk ok db' =>
      obtain ⟨hok, _⟩ := sweepItem_ok now today failUpd db x
        (hf x (by simp)) (hbk1 x (by simp))
      rw [hsi] at hok
      dsimp only at hok
      subst hok
      have hbooks := sweepItem_books now today failUpd db x
      rw [hsi] at hbooks
      dsimp only at hbooks
      dsimp only
      exact ih db' (fun y hy => hf y (by simp [hy]))
        (fun y hy => by rw [hbooks]; exact hbk1 y (by simp [hy]))

/-- C7: one fault-free sweep tick sets every BORROWED-and-past-due
borrowing to OVERDUE and leaves every other row alone; the tick is
idempotent (a second run on the resulting state changes nothing, so it
creates no further notifications); a tick whose overdue query is empty is
a no-op (zero notifications); and, when no other processed book's message
can spuriously mention title `t` (`hcoll`) and no matching notification
pre-exists, the tick creates at most one same-day OVERDUE notification
for user `u` and title `t`. -/
theorem sweep_idempotent_at_most_one_notification (now today : Int)
    (db : DB) (u : Nat) (t : List Char)
    (hnd : (db.borrowings.map Borrowing.id).Nodup)
    (hbk : ∀ b ∈ overdueQuery now db, (findBookIn db.books b.bookId).isSome)
    (hcoll : ∀ b ∈ overdueQuery now db, ∀ bk,
      findBookIn db.books b.bookId = some bk →
      containsSub t (mkOverdueMsg bk.title (daysOverdue now b.expectedReturnDate)) = true →
      bk.title = t)
    (hzero : countMatching today u t db.notifications = 0) :
    (checkOverdueBooks noFail now today db).borrowings =
      db.borrowings.map (fun x => if dueB now x then markOverdue x else x)
    ∧ checkOverdueBooks noFail now today (checkOverdueBooks noFail now today db) =
      checkOverdueBooks noFail now today db
    ∧ (overdueQuery now db = [] → checkOverdueBooks noFail now today db = db)
    ∧ countMatching today u t
        (checkOverdueBooks noFail now today db).notifications ≤ 1 := by
  have hmarks := sweep_marks now today db hnd hbk
  have hnil := sweep_query_nil now today db hmarks
  refine ⟨hmarks, ?_, ?_, ?_⟩
  · set X := checkOverdueBooks noFail now today db with hX
    unfold checkOverdueBooks
    rw [hnil]
    rfl
  · intro hq
    unfold checkOverdueBooks
    rw [hq]
    rfl
  · exact sweepLoop_count now today u t _ db hbk hcoll (by omega)

/-- C8 (amended): the sweep's only try/catch wraps the whole tick, so a
failure while processing one queried borrowing aborts the processing of
every borrowing queued after it (the state stays as the prefix left it);
the tick itself still returns (the catch swallows the error), and a later
fault-free tick marks every still-due BORROWED row OVERDUE. -/
theorem sweep_failure_contained_next_tick_completes (failUpd : Nat → Bool)
    (now today now2 today2 : Int) (db : DB) (l1 : List Borrowing)
    (b : Borrowing) (rest : List Borrowing)
    (hq : overdueQuery now db = l1 ++ b :: rest)
    (hf : ∀ x ∈ l1, failUpd x.id = false)
    (hbk1 : ∀ x ∈ l1, (findBookIn db.books x.bookId).isSome)
    (hfb : failUpd b.id = true)
    (hnd2 : ((checkOverdueBooks failUpd now today db).borrowings.map
      Borrowing.id).Nodup)
    (hbk2 : ∀ x ∈ overdueQuery now2 (checkOverdueBooks failUpd now today db),
      (findBookIn (checkOverdueBooks failUpd now today db).books
        x.bookId).isSome) :
    checkOverdueBooks failUpd now today db = sweepLoop now today failUpd l1 db
    ∧ (checkOverdueBooks noFail now2 today2
        (checkOverdueBooks failUpd now today db)).borrowings =
      (checkOverdueBooks failUpd now today db).borrowings.map
        (fun x => if dueB now2 x then markOverdue x else x) := by
  constructor
  · unfold checkOverdueBooks
    rw [hq]
    exact sweepLoop_append_abort now today failUpd l1 b rest db hf hbk1 hfb
  · exact sweep_marks now2 today2 _ hnd2 hbk2

/-! ## Concrete counterexamples and code-bug evaluations -/

/-- C1 (code bug): starting from a store satisfying the inventory
invariant, a book update supplying only `copiesAvailable := 5` (and no
`copiesTotal`) succeeds and stores a book with 5 available of 3 total
copies — the never-exceed validation is skipped when only one field is
supplied, violating `0 ≤ copiesAvailable ≤ copiesTotal`. -/
theorem updateBook_single_field_breaks_invariant :
    bookInvariant c1book ∧
    updateBook 1 c1req 1 c1db = .ok c1db' ∧
    findBook c1db' 1 = some c1book' ∧
    ¬ bookInvariant c1book' :=
  ⟨by decide, by rfl, by rfl, by decide⟩

/-- C2 (counterexample): under the interleaving in which both in-flight
borrow requests pass their availability check before either decrements,
both requests succeed and the book ends with `copiesAvailable = -1` —
refuting "exactly one succeeds ... and never goes negative". -/
theorem borrow_race_two_successes :
    (runSched envD 0 raceSched
      (mkThread raceUserA raceReq, mkThread raceUserB raceReq, raceDB)).1.out =
      TOutcome.succeeded ∧
    (runSched envD 0 raceSched
      (mkThread raceUserA raceReq, mkThread raceUserB raceReq, raceDB)).2.1.out =
      TOutcome.succeeded ∧
    (findBookIn (runSched envD 0 raceSched
      (mkThread raceUserA raceReq, mkThread raceUserB raceReq,
        raceDB)).2.2.books 1).map Book.copiesAvailable = some (-1) := by
  decide

/-- C3 (counterexample): a STAFF actor borrowing an available book on
behalf of another existing active user is rejected with `FORBIDDEN` — the
code's privilege check admits only ADMIN, refuting "an actor with role
STAFF is permitted to borrow on behalf of another user". -/
theorem borrow_staff_for_other_forbidden :
    staffActor.role = Role.STAFF ∧
    borrowBook envD 0 staffActor c3req raceDB =
      .error (ErrKind.FORBIDDEN, raceDB) :=
  ⟨rfl, by rfl⟩

/-- C4 (counterexample): user 10 has 5 not-yet-returned borrowings (4
BORROWED + 1 OVERDUE) with the limit at 5, yet a further borrow succeeds —
the code counts only BORROWED rows, refuting "a user whose BORROWED plus
OVERDUE borrowings total the limit is rejected with BorrowLimitReached". -/
theorem borrow_overdue_not_counted_toward_limit :
    envD.maxBooksPerUser = 5 ∧
    (c4db.borrowings.filter fun b =>
      decide (b.userId = 10 ∧ b.status ≠ BorrowStatus.RETURNED)).length = 5 ∧
    exceptOk (borrowBook envD 0 raceUserA c4req c4db) = true := by
  decide

/-- C5 (counterexample): user 10 holds an active (OVERDUE, not yet
returned) borrowing of book 5, yet a second borrow of book 5 succeeds —
the duplicate check matches status BORROWED only, refuting the "no
duplicate active borrowing" precondition as stated. -/
theorem borrow_overdue_duplicate_not_rejected :
    (c5db.borrowings.filter fun b =>
      decide (b.userId = 10 ∧ b.bookId = 5 ∧
        b.status ≠ BorrowStatus.RETURNED)).length = 1 ∧
    exceptOk (borrowBook envD 0 raceUserA c5req c5db) = true := by
  decide

/-- C8 (counterexample): the overdue query returns two borrowings; an
injected store failure on the first one's status update makes the tick
return with the store completely unchanged — the second queried borrowing
is not processed, refuting "every other borrowing in the queried overdue
set is still processed". -/
theorem sweep_item_failure_aborts_tick :
    overdueQuery 0 c8db =
      [brFix 1 10 1 (-1) BorrowStatus.BORROWED,
       brFix 2 10 1 (-1) BorrowStatus.BORROWED] ∧
    checkOverdueBooks failOn1 0 0 c8db = c8db := by
  decide

/-! ## Witnesses -/

/-- Concrete instance of `borrow_serialized_one_success`: after user 10's
borrow of the single copy, user 11's borrow fails with
`NO_COPIES_AVAILABLE` and the count is 0. -/
theorem borrow_serialized_one_success_witness :
    borrowBook envD 0 raceUserB raceReq c2db1 =
      .error (ErrKind.NO_COPIES_AVAILABLE, c2db1) ∧
    findBook c2db1 1 = some { raceBook with copiesAvailable := 0 } :=
  borrow_serialized_one_success envD 0 raceUserA raceUserB raceReq raceReq
    raceDB c2db1 c2br 1 raceBook (by rfl) rfl rfl rfl (by rfl) rfl

/-- Concrete instance of `borrow_on_behalf_admin_only` at a STAFF actor. -/
theorem borrow_on_behalf_admin_only_witness :
    borrowBook envD 0 staffActor c3req c4db =
      .error (ErrKind.FORBIDDEN, c4db) :=
  (borrow_on_behalf_admin_only envD 0 staffActor c3req c4db 10 rfl
    (by decide)).1 (by decide)

/-- Concrete instance of `borrow_limit_counts_borrowed_only`: with 5
BORROWED rows the next borrow is rejected. -/
theorem borrow_limit_counts_borrowed_only_witness :
    borrowBook envD 0 raceUserA c4req c4dbFull =
      .error (ErrKind.BORROWING_LIMIT_REACHED, c4dbFull) :=
  (borrow_limit_counts_borrowed_only envD 0 raceUserA c4req c4dbFull 6
    (bookFix 6) raceUserA rfl rfl (by rfl) (by decide) (by rfl) rfl
    (by rfl)).1 (by decide)

/-- Concrete instance of `borrow_check_order_and_purity`: a request for a
missing book id fails with `BOOK_NOT_FOUND` and no state change. -/
theorem borrow_check_order_and_purity_witness :
    borrowBook envD 0 raceUserA c5reqMissing c5db =
      .error (ErrKind.BOOK_NOT_FOUND, c5db) :=
  (borrow_check_order_and_purity envD 0 raceUserA c5reqMissing c5db).2.2.1
    99 rfl rfl (by rfl)

/-- Concrete instance of `return_book_spec`: returning the overdue
borrowing 1 of `c8db` at time 7 succeeds, restores a copy, and notifies
with REMINDER. -/
theorem return_book_spec_witness :
    ∃ db' br',
      returnBook 7 10 1 none c8db = .ok (db', br') ∧
      br'.status = BorrowStatus.RETURNED ∧
      br'.actualReturnDate = some 7 ∧
      findBook db' (brFix 1 10 1 (-1) BorrowStatus.BORROWED).bookId =
        some { bookFix 1 with copiesAvailable := (bookFix 1).copiesAvailable + 1 } ∧
      db'.notifications.head?.map Notification.type =
        some (if (brFix 1 10 1 (-1) BorrowStatus.BORROWED).expectedReturnDate < 7
              then NotifType.REMINDER else NotifType.INFO) :=
  return_book_spec.1 7 10 1 none c8db (brFix 1 10 1 (-1) BorrowStatus.BORROWED)
    (bookFix 1) (by rfl) (by decide) (by rfl)

/-- Concrete instance of `sweep_idempotent_at_most_one_notification` on a
store with one overdue borrowing of the book titled `B`. -/
theorem sweep_idempotent_witness :
    (checkOverdueBooks noFail dayMs 0 c7db).borrowings =
      c7db.borrowings.map (fun x => if dueB dayMs x then markOverdue x else x)
    ∧ checkOverdueBooks noFail dayMs 0 (checkOverdueBooks noFail dayMs 0 c7db) =
      checkOverdueBooks noFail dayMs 0 c7db
    ∧ (overdueQuery dayMs c7db = [] → checkOverdueBooks noFail dayMs 0 c7db = c7db)
    ∧ countMatching 0 10 (("B").toList)
        (checkOverdueBooks noFail dayMs 0 c7db).notifications ≤ 1 :=
  sweep_idempotent_at_most_one_notification dayMs 0 c7db 10 (("B").toList)
    (by decide) (by decide)
    (by
      intro b hb bk hbk hc
      have hq : overdueQuery dayMs c7db = [brFix 1 10 1 0 BorrowStatus.BORROWED] := by
        decide
      rw [hq] at hb
      have hb' : b = brFix 1 10 1 0 BorrowStatus.BORROWED := by simpa using hb
      subst hb'
      have h2 : findBookIn c7db.books
          (brFix 1 10 1 0 BorrowStatus.BORROWED).bookId = some (bookFix 1) := by
        decide
      rw [h2] at hbk
      injection hbk with hbk
      subst hbk
      rfl)
    (by decide)

/-- Concrete instance of `sweep_failure_contained_next_tick_completes`:
the fault on borrowing 1 ends the tick before any work, and a fault-free
tick then marks both rows OVERDUE. -/
theorem sweep_failure_contained_witness :
    checkOverdueBooks failOn1 0 0 c8db = sweepLoop 0 0 failOn1 [] c8db
    ∧ (checkOverdueBooks noFail 0 0 (checkOverdueBooks failOn1 0 0 c8db)).borrowings =
      (checkOverdueBooks failOn1 0 0 c8db).borrowings.map
        (fun x => if dueB 0 x then markOverdue x else x) :=
  sweep_failure_contained_next_tick_completes failOn1 0 0 0 0 c8db []
    (brFix 1 10 1 (-1) BorrowStatus.BORROWED)
    [brFix 2 10 1 (-1) BorrowStatus.BORROWED]
    (by decide) (by simp) (by simp) (by decide) (by decide) (by decide)

/-- Concrete instance of `extend_borrowing_spec`: extending borrowing 1 of
`c8db` by 7 days moves its due date from -1 to `addDays (-1) 7`. -/
theorem extend_borrowing_spec_witness :
    ∃ db' br',
      extendBorrowing 10 1 (some 7) c8db = .ok (db', br') ∧
      br'.expectedReturnDate =
        addDays (brFix 1 10 1 (-1) BorrowStatus.BORROWED).expectedReturnDate 7 ∧
      br'.status = (brFix 1 10 1 (-1) BorrowStatus.BORROWED).status ∧
      findBorrowing db' 1 =
        some { brFix 1 10 1 (-1) BorrowStatus.BORROWED with
          expectedReturnDate :=
            addDays (brFix 1 10 1 (-1) BorrowStatus.BORROWED).expectedReturnDate 7 } :=
  extend_borrowing_spec.1 10 1 7 c8db (brFix 1 10 1 (-1) BorrowStatus.BORROWED)
    (by decide) (by rfl) (by decide)

/-- Concrete instance of `updateBook_copies_validation`: the single-field
update to 5 available copies is accepted against a stored total of 3. -/
theorem updateBook_copies_validation_witness :
    ∃ db',
      updateBook 1
        { title := none, isbn := none, copiesTotal := none,
          copiesAvailable := some 5, status := none } 1 c1db = .ok db' ∧
      findBook db' 1 = some { c1book with copiesAvailable := 5 } :=
  updateBook_copies_validation.2 1 1 c1db c1book 5 (by rfl)

end LibraryQR
